import Mathlib

/-!
Verification development for the opentrack pose pipeline
(`logic/pipeline.cpp`, namespace `pipeline_impl`).

The embedding models IEEE doubles as exact rationals (ℚ).  Wall-clock
timers (`Timer::elapsed_seconds`) and the external collaborators
(tracker, filter plugin, spline curves, and the rotation helpers
`euler_to_rmat` / `rmat_to_euler` plus the scale constants that live in
headers outside this translation unit) are passed in as explicit
parameters, so every theorem quantifies over their behaviour.  NaN/Inf
detection (`nan_check`) has no rational counterpart, so the outcome of
each of the three checks is an oracle boolean.
-/

namespace Opentrack

/-! ## Basic data: Pose, 3-vectors, 3x3 matrices -/

/-- 6-slot pose: TX TY TZ Yaw Pitch Roll (indices 0..5). -/
abbrev Pose := Fin 6 → ℚ

/-- `euler_t`: 3-component vector of doubles. -/
abbrev E3 := Fin 3 → ℚ

/-- `rmat`: 3x3 matrix of doubles. -/
abbrev M3 := Fin 3 → Fin 3 → ℚ

/-- Build a 3-vector. -/
def vec3 (a b c : ℚ) : E3 := fun i =>
  match i with
  | 0 => a
  | 1 => b
  | 2 => c

/-- Build a 6-slot pose from its components (tx ty tz yaw pitch roll). -/
def pose6 (tx ty tz yaw pitch roll : ℚ) : Pose := fun i =>
  match i with
  | 0 => tx
  | 1 => ty
  | 2 => tz
  | 3 => yaw
  | 4 => pitch
  | 5 => roll

/-- Matrix-vector product `R * v`. -/
def mulv (R : M3) (v : E3) : E3 :=
  fun i => R i 0 * v 0 + R i 1 * v 1 + R i 2 * v 2

/-- Matrix-matrix product. -/
def matmul (A B : M3) : M3 :=
  fun i j => A i 0 * B 0 j + A i 1 * B 1 j + A i 2 * B 2 j

/-- Matrix transpose (`rmat::t`). -/
def transpose (A : M3) : M3 := fun i j => A j i

/-- Identity matrix (`rmat::eye`). -/
def eye3 : M3 := fun i j => if i = j then 1 else 0

/-- Embed a translation index 0..2 into a pose index. -/
def f36 : Fin 3 → Fin 6 := Fin.castLE (by omega)

/-- Embed a rotation index 0..2 into a pose index 3..5. -/
def f36' (i : Fin 3) : Fin 6 := ⟨(i : ℕ) + 3, by omega⟩

/-! ## Pose utilities: `pipeline::clamp_value` and friends -/

/-- Truncation toward zero, as C's `fmod` uses. -/
def rtrunc (q : ℚ) : ℤ := if 0 ≤ q then ⌊q⌋ else ⌈q⌉

/-- C `std::fmod x m` on exact rationals: remainder with the sign of `x`. -/
def fmod (x m : ℚ) : ℚ := x - m * rtrunc (x / m)

/-- C `std::copysign mag s` (no signed zero in ℚ). -/
def copysign (mag s : ℚ) : ℚ := if s < 0 then -|mag| else |mag|

/-- `clamp` from compat/math.hpp (std::clamp semantics). -/
def clampq (x lo hi : ℚ) : ℚ := if x < lo then lo else if hi < x then hi else x

/-- Body of the per-rotation-axis loop of `pipeline::clamp_value`.
Note the source stores the folded value into `value(i)` but then
unconditionally overwrites it with `clamp(x, -180, 180)` where `x` is the
pre-fold remainder, so the fold is a dead store; the dead binding is kept
here to mirror the source. -/
def clamp_rot (v : ℚ) : ℚ :=
  let v1 := fmod v 360
  let x := v1
  let v2 := if |x| - 1/100 > 180 then fmod (x + copysign 180 x) 360 - copysign 180 x else v1
  let v3 := clampq x (-180) 180
  v3

/-- `pipeline::clamp_value`: clamp the three rotation slots. -/
def clamp_value (value : Pose) : Pose :=
  fun i => if 3 ≤ (i : ℕ) then clamp_rot (value i) else value i

/-! ## Relative-translation compensator (`reltrans`) -/

/-- `settings::reltrans` enumeration. -/
inductive ReltransState
  | reltrans_disabled
  | reltrans_enabled
  | reltrans_non_center
deriving DecidableEq

/-- Runtime state of `reltrans` (the two timers are modelled by oracle
elapsed-seconds inputs to each step, so only these four fields persist). -/
structure RelState where
  interp_pos : E3
  in_zone : Bool
  cur : Bool
  RC_stage : ℕ
deriving DecidableEq

/-- `reltrans::on_center`. -/
def on_center (st : RelState) : RelState :=
  { st with interp_pos := fun _ => 0, in_zone := false, cur := false }

/-- Implicit bool-to-double conversion used in `value(Yaw) * d2r * !disable(Yaw)`. -/
def b2q (b : Bool) : ℚ := if b then 1 else 0

/-- `reltrans::rotate`: axis permutation (internal order Z,X,Y) with sign
flips; a disabled axis passes its input through. -/
def rotate (R : M3) (inp : E3) (disable : Fin 3 → Bool) : E3 :=
  let ret := mulv R (vec3 (inp 2) (-inp 0) (-inp 1))
  fun i =>
    match i with
    | 0 => if disable 0 then inp 0 else -ret 1
    | 1 => if disable 1 then inp 1 else -ret 2
    | 2 => if disable 2 then inp 2 else ret 0

/-- `reltrans::apply_neck`. -/
def apply_neck (R : M3) (nz : ℚ) (disable_tz : Bool) : E3 :=
  let neck0 := rotate R (vec3 0 0 nz) (fun _ => false)
  let neck1 : E3 := fun i => if i = 2 then neck0 2 - nz else neck0 i
  let neck2 := if disable_tz then (fun i => if i = 2 then (0 : ℚ) else neck1 i) else neck1
  neck2

/-- Zone predicate of `reltrans::apply_pipeline` (evaluated when the mode is
not disabled): in `reltrans_non_center` mode, looking down (pitch < 20)
activates the zone at |yaw| > 35, otherwise at |yaw| > 65; in any other
enabled mode the zone is always active. -/
def in_zone_of (state : ReltransState) (value : Pose) : Bool :=
  match state with
  | .reltrans_non_center =>
      let looking_down := decide (value 4 < 20)
      if looking_down then decide (35 < |value 3|) else decide (65 < |value 3|)
  | _ => true

/-- Lines 102-119 of `reltrans::apply_pipeline`: inside the zone, rotate the
translation through the rotation matrix built from the (optionally
disabled) source angles, then optionally add the neck offset. -/
def reltrans_adjusted (state : ReltransState) (value : Pose) (disable : Fin 6 → Bool)
    (neck_enable : Bool) (neck_z : ℤ) (e2r : E3 → M3) (d2r : ℚ)
    (zone : Bool) (rel : E3) : E3 :=
  if zone then
    let R := e2r (vec3 (value 3 * d2r * b2q (!disable 3))
                       (value 4 * d2r * b2q (!disable 4))
                       (value 5 * d2r * b2q (!disable 5)))
    let rel1 := rotate R rel (fun i => disable (f36 i))
    if neck_enable && (decide (state ≠ .reltrans_non_center) || !zone) then
      fun i => rel1 i + apply_neck R (-(neck_z : ℚ)) (disable 2) i
    else rel1
  else rel

/-- `RC_stages` table from `reltrans::apply_pipeline`. -/
def RC_stages : List ℚ := [2, 1, 1/2, 1/10, 1/20]

/-- `RC_time_deltas` table from `reltrans::apply_pipeline`. -/
def RC_time_deltas : List ℚ := [1, 1/4, 1/4, 2]

/-- Assemble the returned pose: compensated translation, original rotation. -/
def mkPose (t : E3) (value : Pose) : Pose :=
  fun i => if h : (i : ℕ) < 3 then t ⟨i, h⟩ else value i

/-- `reltrans::apply_pipeline`.  `dt` is `interp_timer.elapsed_seconds()` and
`phase_elapsed` is `interp_phase_timer.elapsed_seconds()` (oracle wall-clock
readings). -/
def apply_pipeline (st : RelState) (state : ReltransState) (value : Pose)
    (disable : Fin 6 → Bool) (neck_enable : Bool) (neck_z : ℤ)
    (e2r : E3 → M3) (d2r : ℚ) (dt phase_elapsed : ℚ) : Pose × RelState :=
  let rel : E3 := fun i => value (f36 i)
  if state = .reltrans_disabled then
    (mkPose rel value, { st with cur := false, in_zone := false })
  else
    let in_zone_ := in_zone_of state value
    let armed := !st.cur && (st.in_zone != in_zone_)
    let cur1 := if armed then true else st.cur
    let stage1 := if armed then 0 else st.RC_stage
    let rel1 := reltrans_adjusted state value disable neck_enable neck_z e2r d2r in_zone_ rel
    if cur1 then
      let stage2 := if stage1 + 1 < 5 ∧ phase_elapsed > RC_time_deltas.getD stage1 0
                    then stage1 + 1 else stage1
      let RC := RC_stages.getD stage2 0
      let alpha := dt / (dt + RC)
      let interp : E3 := fun i => st.interp_pos i * (1 - alpha) + rel1 i * alpha
      let tmp : E3 := fun i => rel1 i - interp i
      let delta := |tmp 0| + |tmp 1| + |tmp 2|
      let cur2 := if delta < 1/100 then false else cur1
      (mkPose interp value,
       { interp_pos := interp, in_zone := in_zone_, cur := cur2, RC_stage := stage2 })
    else
      (mkPose rel1 value,
       { interp_pos := rel1, in_zone := in_zone_, cur := cur1, RC_stage := stage1 })

/-! ## Axis maps, settings, and the cycle executor (`pipeline::logic`) -/

/-- Per-axis options of `Map::opts` used by this translation unit:
source-axis index (`src`, with 6 the disabled sentinel), invert flag,
alternate-curve selector, zero-offset scalar. -/
structure AxisOpts where
  src : ℤ
  invert : Bool
  altp : Bool
  zero : ℚ
deriving DecidableEq

/-- `pipeline::get_selected_axis_values`: returns (raw, value, disabled). -/
def get_selected_axis_values (m : Fin 6 → AxisOpts) (newpose : Pose) :
    Pose × Pose × (Fin 6 → Bool) :=
  (newpose,
   fun i =>
     let k := (m i).src
     if h : k < 0 ∨ 6 ≤ k then 0 else newpose ⟨k.toNat, by omega⟩,
   fun i => decide ((m i).src = 6))

/-- `pipeline::map` for one axis, with the two spline curves passed in as
external collaborators (curve evaluation is outside this core). -/
def map_axis (spline_main spline_alt : ℚ → ℚ) (altp : Bool) (pos : ℚ) : ℚ :=
  if decide (pos < 0) && altp then spline_alt pos else spline_main pos

/-- `pipeline::apply_zero_pos`. -/
def apply_zero_pos (m : Fin 6 → AxisOpts) (value : Pose) : Pose :=
  fun i => value i + (m i).zero * (if (m i).invert then -1 else 1)

/-- `pipeline::scaled_state`. -/
structure ScaledState where
  rotation : M3
  inv_rot_center : M3
  t_center : E3

/-- `pipeline::apply_center`.  `e2r`, `r2e` stand for the external
`euler_to_rmat` / `rmat_to_euler`; `d2r`, `r2d`, `scale_c` are the
conversion/scale constants defined outside this translation unit. -/
def apply_center (m : Fin 6 → AxisOpts) (sc : ScaledState) (e2r : E3 → M3)
    (r2e : M3 → E3) (d2r r2d scale_c : ℚ) (value : Pose) : Pose :=
  let T0 : E3 := fun i => value (f36 i) - sc.t_center i
  let R0 : E3 := fun i => d2r * scale_c * r2e (matmul sc.rotation sc.inv_rot_center) i
  let T1 := rotate (e2r R0) T0 (fun _ => false)
  let R1 : E3 := fun i => if (m (f36' i)).invert then -R0 i else R0 i
  let T2 : E3 := fun i => if (m (f36 i)).invert then -T1 i else T1 i
  fun j => if h : (j : ℕ) < 3 then T2 ⟨j, h⟩ else R1 ⟨(j : ℕ) - 3, by omega⟩ * r2d

/-- `pipeline::store_tracker_pose` (`scale_inv_c`, `d2r` external constants). -/
def store_tracker_pose (e2r : E3 → M3) (scale_inv_c d2r : ℚ)
    (sc : ScaledState) (value : Pose) : ScaledState :=
  { sc with rotation := e2r (fun i => scale_inv_c * d2r * value (f36' i)) }

/-- `pipeline::maybe_set_center_pose`; `flag` is `b.get(f_center | f_held_center)`. -/
def maybe_set_center_pose (sc : ScaledState) (value : Pose)
    (own_center_logic flag : Bool) : ScaledState :=
  if flag then
    if own_center_logic then
      { sc with inv_rot_center := eye3, t_center := fun _ => 0 }
    else
      { sc with inv_rot_center := transpose sc.rotation, t_center := fun i => value (f36 i) }
  else sc

/-- The settings fields this translation unit reads. -/
structure Settings where
  center_at_startup : Bool
  reltrans_mode : ReltransState
  reltrans_disable : Fin 6 → Bool
  neck_enable : Bool
  neck_z : ℤ

/-- Program configuration: the six axis maps, the settings, and the
numeric constants defined in headers outside this file. -/
structure Config where
  m : Fin 6 → AxisOpts
  s : Settings
  d2r : ℚ
  r2d : ℚ
  scale_c : ℚ
  scale_inv_c : ℚ

/-- Per-cycle external inputs: tracker pose and centering authority, the
optional filter (identity when absent), the curve evaluators, the rotation
helpers, the two timer readings, and the outcomes of the three `nan_check`
sites (floating-point faults have no rational counterpart). -/
structure Externals where
  tracker_pose : Pose
  tracker_center : Bool
  filter : Pose → Pose
  spline_main : Fin 6 → ℚ → ℚ
  spline_alt : Fin 6 → ℚ → ℚ
  e2r : E3 → M3
  r2e : M3 → E3
  dt : ℚ
  phase_elapsed : ℚ
  fault1 : Bool
  fault2 : Bool
  fault3 : Bool

/-- `pipeline::apply_reltrans`. -/
def apply_reltrans (cfg : Config) (ext : Externals) (rel : RelState) (value : Pose)
    (disabled : Fin 6 → Bool) (centerp : Bool) : Pose × RelState :=
  let rel := if centerp then on_center rel else rel
  let r := apply_pipeline rel cfg.s.reltrans_mode value cfg.s.reltrans_disable
             cfg.s.neck_enable cfg.s.neck_z ext.e2r cfg.d2r ext.dt ext.phase_elapsed
  (fun k => if disabled k then 0 else r.1 k, r.2)

/-- Mutable pipeline state threaded between cycles: the command flag bits,
tracking-started latch, last raw pose read, centering state, compensator
state, and the mutex-protected shared output pair. -/
structure PipelineState where
  f_center : Bool
  f_held_center : Bool
  f_enabled_p : Bool
  f_enabled_h : Bool
  f_zero : Bool
  tracking_started : Bool
  newpose : Pose
  scaled : ScaledState
  rel : RelState
  output_pose : Pose
  raw_6dof : Pose

/-- `hold_ordered` of `pipeline::logic`: persistent-enable XOR hold-enable. -/
def hold_ordered (st : PipelineState) : Bool := Bool.xor st.f_enabled_p st.f_enabled_h

/-- The all-zero pose. -/
def zero_pose : Pose := fun _ => 0

/-- Tail of `pipeline::logic` from label `ok`: clear the one-shot center
flag, zero on the Zero command, add the zero offsets, publish, and store
`(value, raw)` into the shared output state.  Returns the new state and
the published pose. -/
def ok_finish (cfg : Config) (st : PipelineState) (value raw : Pose) :
    PipelineState × Pose :=
  let value1 := if st.f_zero then zero_pose else value
  let value2 := apply_zero_pos cfg.m value1
  ({ st with f_center := false, output_pose := value2, raw_6dof := raw }, value2)

/-- The freeze path (label `error`): discard the computed value and raw
pose, reuse the previous shared output pair, then fall through to `ok`. -/
def freeze_finish (cfg : Config) (st : PipelineState) : PipelineState × Pose :=
  ok_finish cfg st st.output_pose st.raw_6dof

/-- `pipeline::logic`: one full cycle.  Event hooks only observe the pose;
the display-refresh `map` calls on the freeze path only touch external
spline tracking state, so neither appears in the state. -/
def logic (cfg : Config) (ext : Externals) (st0 : PipelineState) :
    PipelineState × Pose :=
  let center_ordered := (st0.f_center || st0.f_held_center) && st0.tracking_started
  let own_center_logic := center_ordered && ext.tracker_center
  let hold := hold_ordered st0
  let newpose := ext.tracker_pose
  let sel := get_selected_axis_values cfg.m newpose
  let raw := sel.1
  let disabled := sel.2.2
  let st1 := { st0 with newpose := newpose }
  if ext.fault1 then freeze_finish cfg st1 else
  let value1 := clamp_value sel.2.1
  let ts := st1.tracking_started || decide (∃ i, newpose i ≠ 0)
  let fc := st1.f_center || (!st1.tracking_started && ts && cfg.s.center_at_startup)
  let sc1 := store_tracker_pose ext.e2r cfg.scale_inv_c cfg.d2r st1.scaled value1
  let sc2 := maybe_set_center_pose sc1 value1 own_center_logic (fc || st1.f_held_center)
  let st2 := { st1 with tracking_started := ts, f_center := fc, scaled := sc2 }
  let value2 := apply_center cfg.m sc2 ext.e2r ext.r2e cfg.d2r cfg.r2d cfg.scale_c value1
  let tmp := ext.filter value2
  if ext.fault2 then freeze_finish cfg st2 else
  let value3 := if !center_ordered then tmp else value2
  let value4 : Pose := fun i =>
    if 3 ≤ (i : ℕ) then
      map_axis (ext.spline_main i) (ext.spline_alt i) ((cfg.m i).altp) (value3 i)
    else value3 i
  let rr := apply_reltrans cfg ext st2.rel value4 disabled center_ordered
  let st3 := { st2 with rel := rr.2 }
  let value5 : Pose := fun i =>
    if (i : ℕ) < 3 then
      map_axis (ext.spline_main i) (ext.spline_alt i) ((cfg.m i).altp) (rr.1 i)
    else rr.1 i
  if ext.fault3 then freeze_finish cfg st3 else
  if hold then freeze_finish cfg st3 else
  ok_finish cfg st3 value5 raw

/-! ## Helper lemmas -/

/-- With all zero-offsets zero, `apply_zero_pos` is the identity. -/
theorem apply_zero_pos_id (m : Fin 6 → AxisOpts) (v : Pose)
    (hz : ∀ i, (m i).zero = 0) : apply_zero_pos m v = v := by
  funext i
  simp [apply_zero_pos, hz]

/-- Any freeze cause (one of the three `nan_check` faults, or a hold-order)
makes `logic` publish the zero-offset-adjusted previous output, store it
back, keep the previous raw pose, and leave the command flags other than
`f_center` untouched. -/
theorem logic_freeze_spec (cfg : Config) (ext : Externals) (st : PipelineState)
    (h : ext.fault1 = true ∨ ext.fault2 = true ∨ ext.fault3 = true ∨
         hold_ordered st = true) :
    (logic cfg ext st).2
      = apply_zero_pos cfg.m (if st.f_zero then zero_pose else st.output_pose)
    ∧ (logic cfg ext st).1.output_pose = (logic cfg ext st).2
    ∧ (logic cfg ext st).1.raw_6dof = st.raw_6dof
    ∧ (logic cfg ext st).1.f_zero = st.f_zero
    ∧ (logic cfg ext st).1.f_enabled_p = st.f_enabled_p
    ∧ (logic cfg ext st).1.f_enabled_h = st.f_enabled_h := by
  cases hf1 : ext.fault1 <;> cases hf2 : ext.fault2 <;> cases hf3 : ext.fault3
  case false.false.false =>
    simp only [hf1, hf2, hf3, false_or, Bool.false_eq_true] at h
    refine ⟨?_, ?_, ?_, ?_, ?_, ?_⟩ <;>
      simp [logic, freeze_finish, ok_finish, hf1, hf2, hf3, h]
  all_goals
    refine ⟨?_, ?_, ?_, ?_, ?_, ?_⟩ <;>
      simp [logic, freeze_finish, ok_finish, hf1, hf2, hf3]

/-! ## Concrete fixtures for witnesses and counterexamples -/

/-- Identity axis options: source = own axis, no invert, no alt curve, zero offset 0. -/
def axis_id (i : Fin 6) : AxisOpts := { src := (i : ℕ), invert := false, altp := false, zero := 0 }

/-- Settings with the compensator disabled. -/
def settings0 : Settings :=
  { center_at_startup := false, reltrans_mode := .reltrans_disabled,
    reltrans_disable := fun _ => false, neck_enable := false, neck_z := 0 }

/-- Neutral centering state. -/
def scaled0 : ScaledState := { rotation := eye3, inv_rot_center := eye3, t_center := fun _ => 0 }

/-- Neutral compensator state. -/
def relst0 : RelState := { interp_pos := fun _ => 0, in_zone := false, cur := false, RC_stage := 0 }

/-- Configuration with identity axis maps and all offsets zero. -/
def cfg_id : Config :=
  { m := axis_id, s := settings0, d2r := 0, r2d := 0, scale_c := 0, scale_inv_c := 0 }

/-- Same configuration but with zero-offset 1 on the TX axis. -/
def cfg_off : Config :=
  { cfg_id with m := fun i => if (i : ℕ) = 0 then { axis_id i with zero := 1 } else axis_id i }

/-- Baseline pipeline state: default flag values of `bits::bits()`
(`f_enabled_p = f_enabled_h = true`, others false), zeroed poses. -/
def st_base : PipelineState :=
  { f_center := false, f_held_center := false, f_enabled_p := true, f_enabled_h := true,
    f_zero := false, tracking_started := false, newpose := zero_pose, scaled := scaled0,
    rel := relst0, output_pose := zero_pose, raw_6dof := zero_pose }

/-- External inputs: zero tracker pose, identity filter and curves, trivial
rotation helpers, dt = 1, no faults. -/
def ext_ok : Externals :=
  { tracker_pose := zero_pose, tracker_center := false, filter := id,
    spline_main := fun _ => id, spline_alt := fun _ => id,
    e2r := fun _ => eye3, r2e := fun _ _ => 0, dt := 1, phase_elapsed := 0,
    fault1 := false, fault2 := false, fault3 := false }

/-- Same external inputs, but the first `nan_check` trips (numeric fault). -/
def ext_nan : Externals := { ext_ok with fault1 := true }

/-! ## Claims C2 and C3: freeze-path behaviour of `pipeline::logic` -/

/-- Claim C2 counterexample: with a nonzero zero-offset (TX offset 1) the
freeze path is not idempotent — two consecutive numeric-fault cycles from
the all-zero last-good state publish different poses, because the tail of
`logic` re-applies `apply_zero_pos` to the reused previous output. -/
theorem c2_counterexample :
    (logic cfg_off ext_nan (logic cfg_off ext_nan st_base).1).2
      ≠ (logic cfg_off ext_nan st_base).2 := by
  have h1 := logic_freeze_spec cfg_off ext_nan st_base (Or.inl rfl)
  have h2 := logic_freeze_spec cfg_off ext_nan (logic cfg_off ext_nan st_base).1 (Or.inl rfl)
  have e0 : (logic cfg_off ext_nan st_base).2 ⟨0, by omega⟩ = 1 := by
    rw [h1.1]
    norm_num [apply_zero_pos, cfg_off, cfg_id, axis_id, st_base, zero_pose]
  have e1 : (logic cfg_off ext_nan (logic cfg_off ext_nan st_base).1).2 ⟨0, by omega⟩ = 2 := by
    rw [h2.1, h1.2.2.2.1, h1.2.1, h1.1]
    norm_num [apply_zero_pos, cfg_off, cfg_id, axis_id, st_base, zero_pose]
  intro he
  have := congrFun he ⟨0, by omega⟩
  rw [e0, e1] at this
  norm_num at this

/-- Claim C2 (amended): when every axis's zero-offset is 0, two consecutive
freeze cycles publish identical poses, and when the Zero command flag is
off that common pose equals the last good published value. -/
theorem c2_freeze_idempotent (cfg : Config) (ext1 ext2 : Externals) (st : PipelineState)
    (hz : ∀ i, (cfg.m i).zero = 0)
    (h1 : ext1.fault1 = true ∨ ext1.fault2 = true ∨ ext1.fault3 = true ∨
          hold_ordered st = true)
    (h2 : ext2.fault1 = true ∨ ext2.fault2 = true ∨ ext2.fault3 = true ∨
          hold_ordered (logic cfg ext1 st).1 = true) :
    (logic cfg ext2 (logic cfg ext1 st).1).2 = (logic cfg ext1 st).2
    ∧ (st.f_zero = false → (logic cfg ext1 st).2 = st.output_pose) := by
  have s1 := logic_freeze_spec cfg ext1 st h1
  have s2 := logic_freeze_spec cfg ext2 (logic cfg ext1 st).1 h2
  rw [apply_zero_pos_id _ _ hz] at s1
  rw [apply_zero_pos_id _ _ hz] at s2
  constructor
  · rw [s2.1, s1.2.2.2.1, s1.2.1]
    cases hfz : st.f_zero <;> simp [hfz, s1.1]
  · intro hfz
    rw [s1.1, hfz]
    simp

/-- Witness for C2 (amended) at concrete inputs: identity configuration,
all offsets 0, both cycles faulting at the first `nan_check`. -/
theorem c2_freeze_idempotent_witness :
    (logic cfg_id ext_nan (logic cfg_id ext_nan st_base).1).2
      = (logic cfg_id ext_nan st_base).2
    ∧ (st_base.f_zero = false → (logic cfg_id ext_nan st_base).2 = st_base.output_pose) :=
  c2_freeze_idempotent cfg_id ext_nan ext_nan st_base (fun _ => rfl) (Or.inl rfl) (Or.inl rfl)

/-- Claim C3: the hold decision is `EnabledPersistent XOR EnabledHold`, and a
hold cycle with no numeric fault behaves exactly like a fault cycle: the
computed value and raw pose are discarded, the published pose is built from
the previous cycle's published output, the previous raw pose is kept, and
both coincide with the corresponding results of a faulting cycle. -/
theorem c3_hold_freeze (cfg : Config) (ext : Externals) (st : PipelineState)
    (hf1 : ext.fault1 = false) (hf2 : ext.fault2 = false) (hf3 : ext.fault3 = false)
    (hh : hold_ordered st = true) :
    hold_ordered st = Bool.xor st.f_enabled_p st.f_enabled_h
    ∧ (logic cfg ext st).2
        = apply_zero_pos cfg.m (if st.f_zero then zero_pose else st.output_pose)
    ∧ (logic cfg ext st).1.raw_6dof = st.raw_6dof
    ∧ (logic cfg ext st).2 = (logic cfg { ext with fault1 := true } st).2
    ∧ (logic cfg ext st).1.output_pose
        = (logic cfg { ext with fault1 := true } st).1.output_pose
    ∧ (logic cfg ext st).1.raw_6dof
        = (logic cfg { ext with fault1 := true } st).1.raw_6dof := by
  have sh := logic_freeze_spec cfg ext st (Or.inr (Or.inr (Or.inr hh)))
  have sf := logic_freeze_spec cfg { ext with fault1 := true } st (Or.inl rfl)
  refine ⟨rfl, sh.1, sh.2.2.1, ?_, ?_, ?_⟩
  · rw [sh.1, sf.1]
  · rw [sh.2.1, sf.2.1, sh.1, sf.1]
  · rw [sh.2.2.1, sf.2.2.1]

/-- State with a hold mismatch: persistent enable true, hold enable false. -/
def st_hold : PipelineState := { st_base with f_enabled_h := false }

/-- Witness for C3 at concrete inputs: no faults, hold mismatch active. -/
theorem c3_hold_freeze_witness :
    hold_ordered st_hold = Bool.xor st_hold.f_enabled_p st_hold.f_enabled_h
    ∧ (logic cfg_id ext_ok st_hold).2
        = apply_zero_pos cfg_id.m (if st_hold.f_zero then zero_pose else st_hold.output_pose)
    ∧ (logic cfg_id ext_ok st_hold).1.raw_6dof = st_hold.raw_6dof
    ∧ (logic cfg_id ext_ok st_hold).2 = (logic cfg_id { ext_ok with fault1 := true } st_hold).2
    ∧ (logic cfg_id ext_ok st_hold).1.output_pose
        = (logic cfg_id { ext_ok with fault1 := true } st_hold).1.output_pose
    ∧ (logic cfg_id ext_ok st_hold).1.raw_6dof
        = (logic cfg_id { ext_ok with fault1 := true } st_hold).1.raw_6dof :=
  c3_hold_freeze cfg_id ext_ok st_hold rfl rfl rfl rfl

/-! ## Claims C1, C4, C5: the rotation clamp -/

/-- Truncation agrees with the floor on nonnegative arguments. -/
theorem rtrunc_nonneg (q : ℚ) (h : 0 ≤ q) : rtrunc q = ⌊q⌋ := by
  unfold rtrunc
  rw [if_pos h]

/-- Truncation agrees with the ceiling on nonpositive arguments. -/
theorem rtrunc_nonpos (q : ℚ) (h : q ≤ 0) : rtrunc q = ⌈q⌉ := by
  unfold rtrunc
  split_ifs with h0
  · have hq : q = 0 := le_antisymm h h0
    subst hq
    simp
  · rfl

/-- Evaluate the truncation on a concrete nonnegative rational. -/
theorem rtrunc_eq_of_nonneg (q : ℚ) (n : ℤ) (h0 : 0 ≤ q) (h1 : (n : ℚ) ≤ q)
    (h2 : q < n + 1) : rtrunc q = n := by
  rw [rtrunc_nonneg q h0, Int.floor_eq_iff]
  exact ⟨h1, h2⟩

/-- Evaluate the truncation on a concrete nonpositive rational. -/
theorem rtrunc_eq_of_nonpos (q : ℚ) (n : ℤ) (h0 : q ≤ 0) (h1 : (n : ℚ) - 1 < q)
    (h2 : q ≤ n) : rtrunc q = n := by
  rw [rtrunc_nonpos q h0, Int.ceil_eq_iff]
  exact ⟨h1, h2⟩

/-- Evaluate `fmod` from a truncation value. -/
theorem fmod_eval (x m q : ℚ) (n : ℤ) (ht : rtrunc (x / m) = n) (hq : x - m * n = q) :
    fmod x m = q := by
  unfold fmod
  rw [ht]
  exact hq

/-- Claim C1, actual behaviour: on input 190 the rotation clamp returns 180
(not -170), and on input -185 it returns -180 (not 175).  The fold computed
in the `if` branch of `clamp_value` is dead: the following line overwrites
`value(i)` with `clamp(x, -180, 180)` of the pre-fold remainder `x`. -/
theorem c1_clamp_examples_actual :
    clamp_value (pose6 0 0 0 190 0 0) 3 = 180
    ∧ clamp_value (pose6 0 0 0 (-185) 0 0) 3 = -180 := by
  have f1 : fmod 190 360 = 190 :=
    fmod_eval 190 360 190 0
      (rtrunc_eq_of_nonneg _ 0 (by norm_num) (by norm_num) (by norm_num)) (by norm_num)
  have f2 : fmod (-185) 360 = -185 :=
    fmod_eval (-185) 360 (-185) 0
      (rtrunc_eq_of_nonpos _ 0 (by norm_num) (by norm_num) (by norm_num)) (by norm_num)
  constructor
  · have hv : clamp_value (pose6 0 0 0 190 0 0) 3 = clamp_rot 190 := rfl
    rw [hv]
    simp only [clamp_rot, clampq, f1]
    norm_num
  · have hv : clamp_value (pose6 0 0 0 (-185) 0 0) 3 = clamp_rot (-185) := rfl
    rw [hv]
    simp only [clamp_rot, clampq, f2]
    norm_num

/-- Claim C4: every rotation slot of the clamp output lies in [-180, 180],
and the translation slots pass through unchanged. -/
theorem c4_clamp_range (v : Pose) (i : Fin 6) :
    (3 ≤ (i : ℕ) → -180 ≤ clamp_value v i ∧ clamp_value v i ≤ 180)
    ∧ ((i : ℕ) < 3 → clamp_value v i = v i) := by
  constructor
  · intro h3
    unfold clamp_value
    rw [if_pos h3]
    simp only [clamp_rot, clampq]
    split_ifs with h1 h2 <;> constructor <;> linarith
  · intro h3
    unfold clamp_value
    rw [if_neg (by omega)]

/-- Witness for C4 at concrete inputs: the Yaw slot of a pose with rotation
190 is clamped into range, and the TX slot is untouched. -/
theorem c4_clamp_range_witness :
    (-180 ≤ clamp_value (pose6 0 0 0 190 0 0) 3 ∧ clamp_value (pose6 0 0 0 190 0 0) 3 ≤ 180)
    ∧ clamp_value (pose6 0 0 0 190 0 0) 0 = pose6 0 0 0 190 0 0 0 :=
  ⟨(c4_clamp_range (pose6 0 0 0 190 0 0) 3).1 (by decide),
   (c4_clamp_range (pose6 0 0 0 190 0 0) 0).2 (by decide)⟩

/-- Claim C5 counterexample: the rotation clamp is not 360-periodic.  At
x = 180.005 (inside the 0.01 tolerance band) and k = -1 the two results
differ: clamp(180.005) = 180 but clamp(-179.995) = -179.995. -/
theorem c5_not_periodic :
    clamp_rot (36001/200 + 360 * ((-1 : ℤ) : ℚ)) ≠ clamp_rot (36001/200) := by
  have ha : (36001/200 + 360 * ((-1 : ℤ) : ℚ)) = -35999/200 := by
    push_cast
    norm_num
  have f1 : fmod (-35999/200) 360 = -35999/200 :=
    fmod_eval _ 360 _ 0
      (rtrunc_eq_of_nonpos _ 0 (by norm_num) (by norm_num) (by norm_num)) (by norm_num)
  have f2 : fmod (36001/200) 360 = 36001/200 :=
    fmod_eval _ 360 _ 0
      (rtrunc_eq_of_nonneg _ 0 (by norm_num) (by norm_num) (by norm_num)) (by norm_num)
  have c1 : clamp_rot (-35999/200) = -35999/200 := by
    simp only [clamp_rot, clampq, f1]
    norm_num
  have c2 : clamp_rot (36001/200) = 180 := by
    simp only [clamp_rot, clampq, f2]
    norm_num
  rw [ha, c1, c2]
  norm_num

/-- Claim C5 (amended): the rotation clamp is 360-periodic on inputs that do
not cross zero, i.e. whenever x and x + 360k are both nonnegative or both
nonpositive. -/
theorem c5_periodic_same_sign (x : ℚ) (k : ℤ)
    (h : (0 ≤ x ∧ 0 ≤ x + 360 * k) ∨ (x ≤ 0 ∧ x + 360 * k ≤ 0)) :
    clamp_rot (x + 360 * k) = clamp_rot x := by
  have e : (x + 360 * (k : ℚ)) / 360 = x / 360 + (k : ℚ) := by ring
  have hm : fmod (x + 360 * k) 360 = fmod x 360 := by
    rcases h with ⟨h1, h2⟩ | ⟨h1, h2⟩
    · have r1 : rtrunc ((x + 360 * (k : ℚ)) / 360) = ⌊x / 360⌋ + k := by
        rw [rtrunc_nonneg _ (div_nonneg h2 (by norm_num)), e, Int.floor_add_int]
      unfold fmod
      rw [r1, rtrunc_nonneg _ (div_nonneg h1 (by norm_num))]
      push_cast
      ring
    · have r1 : rtrunc ((x + 360 * (k : ℚ)) / 360) = ⌈x / 360⌉ + k := by
        rw [rtrunc_nonpos _ (div_nonpos_iff.mpr (Or.inr ⟨h2, by norm_num⟩)), e,
          Int.ceil_add_int]
      unfold fmod
      rw [r1, rtrunc_nonpos _ (div_nonpos_iff.mpr (Or.inr ⟨h1, by norm_num⟩))]
      push_cast
      ring
  simp only [clamp_rot, hm]

/-- Witness for C5 (amended) at concrete inputs: 400 and 40 are both
nonnegative and the clamp agrees on them. -/
theorem c5_periodic_same_sign_witness :
    clamp_rot (400 + 360 * ((-1 : ℤ) : ℚ)) = clamp_rot 400 :=
  c5_periodic_same_sign 400 (-1) (Or.inl ⟨by norm_num, by push_cast; norm_num⟩)

/-! ## Claims C6, C8, C9, C10: the compensator -/

/-- Claim C6: in `ZoneTriggered` (`reltrans_non_center`) mode the zone
predicate is: pitch < 20 (looking down) activates at |yaw| > 35, otherwise
at |yaw| > 65; the four example points behave as specified; in `AlwaysOn`
(`reltrans_enabled`) mode the zone is always active.  Pose slots: index 3
is yaw, index 4 is pitch. -/
theorem c6_zone_predicate :
    (∀ value : Pose, in_zone_of .reltrans_non_center value = true
        ↔ (if value 4 < 20 then 35 < |value 3| else 65 < |value 3|))
    ∧ in_zone_of .reltrans_non_center (pose6 0 0 0 40 10 0) = true
    ∧ in_zone_of .reltrans_non_center (pose6 0 0 0 30 10 0) = false
    ∧ in_zone_of .reltrans_non_center (pose6 0 0 0 70 25 0) = true
    ∧ in_zone_of .reltrans_non_center (pose6 0 0 0 60 25 0) = false
    ∧ (∀ value : Pose, in_zone_of .reltrans_enabled value = true) := by
  have hiff : ∀ value : Pose, in_zone_of .reltrans_non_center value = true
      ↔ (if value 4 < 20 then 35 < |value 3| else 65 < |value 3|) := by
    intro value
    by_cases h : value 4 < 20 <;> simp [in_zone_of, h]
  have h40 : |(40:ℚ)| = 40 := by norm_num
  have h30 : |(30:ℚ)| = 30 := by norm_num
  have h70 : |(70:ℚ)| = 70 := by norm_num
  have h60 : |(60:ℚ)| = 60 := by norm_num
  refine ⟨hiff, ?_, ?_, ?_, ?_, fun _ => rfl⟩
  · rw [show in_zone_of .reltrans_non_center (pose6 0 0 0 40 10 0)
        = (if decide ((10:ℚ) < 20) then decide (35 < |(40:ℚ)|) else decide (65 < |(40:ℚ)|)) from rfl]
    rw [h40]
    norm_num
  · rw [show in_zone_of .reltrans_non_center (pose6 0 0 0 30 10 0)
        = (if decide ((10:ℚ) < 20) then decide (35 < |(30:ℚ)|) else decide (65 < |(30:ℚ)|)) from rfl]
    rw [h30]
    norm_num
  · rw [show in_zone_of .reltrans_non_center (pose6 0 0 0 70 25 0)
        = (if decide ((25:ℚ) < 20) then decide (35 < |(70:ℚ)|) else decide (65 < |(70:ℚ)|)) from rfl]
    rw [h70]
    norm_num
  · rw [show in_zone_of .reltrans_non_center (pose6 0 0 0 60 25 0)
        = (if decide ((25:ℚ) < 20) then decide (35 < |(60:ℚ)|) else decide (65 < |(60:ℚ)|)) from rfl]
    rw [h60]
    norm_num

/-- Claim C8: `on_center` resets the compensator accumulator to neutral
(interpolated position zero, zone flag false, transition flag false), and
`apply_reltrans` with the centering flag performs this reset before the
compensation step runs. -/
theorem c8_center_resets (cfg : Config) (ext : Externals) (st : RelState) (value : Pose)
    (disabled : Fin 6 → Bool) :
    (on_center st).interp_pos = (fun _ => 0)
    ∧ (on_center st).in_zone = false
    ∧ (on_center st).cur = false
    ∧ apply_reltrans cfg ext st value disabled true
        = apply_reltrans cfg ext (on_center st) value disabled false :=
  ⟨rfl, rfl, rfl, rfl⟩

/-- Claim C9: with the zone inactive the translation passes through and no
neck offset is added; with the zone active the neck offset is added exactly
when neck is enabled and the mode is not `reltrans_non_center` (the source
guard `state != reltrans_non_center || !in_zone` collapses to this inside
the zone), and the offset comes from rotating the pure-Z vector (0,0,-neck_z)
through the same rotation matrix, subtracting the original Z, and zeroing
its Z component when TZ is disabled. -/
theorem c9_neck_model (state : ReltransState) (value : Pose) (disable : Fin 6 → Bool)
    (neck_enable : Bool) (neck_z : ℤ) (e2r : E3 → M3) (d2r : ℚ) (rel : E3)
    (R : M3) (q : ℚ) (dz : Bool) :
    (reltrans_adjusted state value disable neck_enable neck_z e2r d2r false rel = rel)
    ∧ (reltrans_adjusted state value disable neck_enable neck_z e2r d2r true rel
        = (let Rm := e2r (vec3 (value 3 * d2r * b2q (!disable 3))
                               (value 4 * d2r * b2q (!disable 4))
                               (value 5 * d2r * b2q (!disable 5)))
           let rot := rotate Rm rel (fun i => disable (f36 i))
           if neck_enable && decide (state ≠ .reltrans_non_center) then
             fun i => rot i + apply_neck Rm (-(neck_z : ℚ)) (disable 2) i
           else rot))
    ∧ apply_neck R q dz 0 = rotate R (vec3 0 0 q) (fun _ => false) 0
    ∧ apply_neck R q dz 1 = rotate R (vec3 0 0 q) (fun _ => false) 1
    ∧ apply_neck R q dz 2 = (if dz then 0 else rotate R (vec3 0 0 q) (fun _ => false) 2 - q) := by
  refine ⟨rfl, ?_, ?_, ?_, ?_⟩
  · simp only [reltrans_adjusted, Bool.not_true, Bool.or_false, if_true]
  · cases dz <;> rfl
  · cases dz <;> rfl
  · cases dz <;> rfl

/-- Claim C7: with the compensator enabled, a cycle already in transition
advances the RC stage when the phase timer exceeds the threshold from
{1, 0.25, 0.25, 2} (saturating at the last of the five stages), takes
RC from {2, 1, 0.5, 0.1, 0.05}, computes alpha = dt/(dt+RC), updates
interp = interp*(1-alpha) + target*alpha, outputs the filtered value, and
clears the transition flag exactly when the L1 distance between target and
filtered value drops below 0.01; a cycle not in transition (and with no
zone change to arm one) re-seeds the filtered value to the raw target. -/
theorem c7_staged_interpolation (st : RelState) (state : ReltransState) (value : Pose)
    (disable : Fin 6 → Bool) (neck_enable : Bool) (neck_z : ℤ) (e2r : E3 → M3)
    (d2r dt phase : ℚ) (hstate : state ≠ .reltrans_disabled) :
    (st.cur = true →
      (let target := reltrans_adjusted state value disable neck_enable neck_z e2r d2r
                       (in_zone_of state value) (fun i => value (f36 i))
       let stage2 := if st.RC_stage + 1 < 5 ∧
                        phase > ([1, 1/4, 1/4, 2] : List ℚ).getD st.RC_stage 0
                     then st.RC_stage + 1 else st.RC_stage
       let alpha := dt / (dt + ([2, 1, 1/2, 1/10, 1/20] : List ℚ).getD stage2 0)
       let interp : E3 := fun i => st.interp_pos i * (1 - alpha) + target i * alpha
       let r := apply_pipeline st state value disable neck_enable neck_z e2r d2r dt phase
       r.2.RC_stage = stage2
       ∧ r.2.interp_pos = interp
       ∧ (∀ i : Fin 3, r.1 (f36 i) = interp i)
       ∧ (r.2.cur = false ↔
            |target 0 - interp 0| + |target 1 - interp 1| + |target 2 - interp 2| < 1/100)))
    ∧ ((st.cur = false ∧ st.in_zone = in_zone_of state value) →
      (let target := reltrans_adjusted state value disable neck_enable neck_z e2r d2r
                       (in_zone_of state value) (fun i => value (f36 i))
       let r := apply_pipeline st state value disable neck_enable neck_z e2r d2r dt phase
       r.2.interp_pos = target
       ∧ (∀ i : Fin 3, r.1 (f36 i) = target i)
       ∧ r.2.cur = false
       ∧ r.2.RC_stage = st.RC_stage)) := by
  obtain ⟨ip, iz, cu, stg⟩ := st
  constructor
  · intro hcur
    simp only at hcur
    subst hcur
    refine ⟨?_, ?_, fun i => ?_, ?_⟩
    · simp only [apply_pipeline, if_neg hstate, Bool.not_true, Bool.false_and,
        Bool.false_eq_true, if_false, if_true, RC_stages, RC_time_deltas]
    · simp only [apply_pipeline, if_neg hstate, Bool.not_true, Bool.false_and,
        Bool.false_eq_true, if_false, if_true, RC_stages, RC_time_deltas]
    · simp [apply_pipeline, if_neg hstate, mkPose, f36, Fin.coe_castLE, i.isLt,
        RC_stages, RC_time_deltas]
    · simp only [apply_pipeline, if_neg hstate, Bool.not_true, Bool.false_and,
        Bool.false_eq_true, if_false, if_true, RC_stages, RC_time_deltas]
      split_ifs <;>
        first
          | exact iff_of_true rfl (by assumption)
          | exact iff_of_false (by simp) (by assumption)
  · rintro ⟨hcur, hzone⟩
    simp only at hcur hzone
    subst hcur
    subst hzone
    refine ⟨?_, fun i => ?_, ?_, ?_⟩
    · simp only [apply_pipeline, if_neg hstate, Bool.not_false, bne_self_eq_false,
        Bool.and_false, Bool.false_eq_true, if_false]
    · simp [apply_pipeline, if_neg hstate, mkPose, f36, Fin.coe_castLE, i.isLt]
    · simp only [apply_pipeline, if_neg hstate, Bool.not_false, bne_self_eq_false,
        Bool.and_false, Bool.false_eq_true, if_false]
    · simp only [apply_pipeline, if_neg hstate, Bool.not_false, bne_self_eq_false,
        Bool.and_false, Bool.false_eq_true, if_false]

/-- Transition-active compensator state used by the C7 witness. -/
def relst7 : RelState :=
  { interp_pos := fun _ => 0, in_zone := true, cur := true, RC_stage := 0 }

/-- Witness for C7 at concrete inputs: AlwaysOn mode, target translation
(4,0,0) through the identity rotation, dt = 1, phase reading 2 (advancing
the stage from 0 to 1, so RC = 1 and alpha = 1/2). -/
theorem c7_staged_interpolation_witness :
    (let target := reltrans_adjusted .reltrans_enabled (pose6 4 0 0 0 0 0) (fun _ => false)
                     false 0 (fun _ => eye3) 0
                     (in_zone_of .reltrans_enabled (pose6 4 0 0 0 0 0))
                     (fun i => pose6 4 0 0 0 0 0 (f36 i))
     let stage2 := if relst7.RC_stage + 1 < 5 ∧
                      (2:ℚ) > ([1, 1/4, 1/4, 2] : List ℚ).getD relst7.RC_stage 0
                   then relst7.RC_stage + 1 else relst7.RC_stage
     let alpha := (1:ℚ) / (1 + ([2, 1, 1/2, 1/10, 1/20] : List ℚ).getD stage2 0)
     let interp : E3 := fun i => relst7.interp_pos i * (1 - alpha) + target i * alpha
     let r := apply_pipeline relst7 .reltrans_enabled (pose6 4 0 0 0 0 0) (fun _ => false)
                false 0 (fun _ => eye3) 0 1 2
     r.2.RC_stage = stage2
     ∧ r.2.interp_pos = interp
     ∧ (∀ i : Fin 3, r.1 (f36 i) = interp i)
     ∧ (r.2.cur = false ↔
          |target 0 - interp 0| + |target 1 - interp 1| + |target 2 - interp 2| < 1/100)) :=
  (c7_staged_interpolation relst7 .reltrans_enabled (pose6 4 0 0 0 0 0) (fun _ => false)
     false 0 (fun _ => eye3) 0 1 2 (by decide)).1 rfl

/-- Claim C10 (implicit): `on_center` leaves the RC-stage index unchanged,
and a compensator step resets the stage to 0 only when it was already 0 or
a new transition was armed by a zone-membership change with no transition
in progress. -/
theorem c10_rc_stage_on_center :
    (∀ st : RelState, (on_center st).RC_stage = st.RC_stage)
    ∧ (∀ (st : RelState) (state : ReltransState) (value : Pose) (disable : Fin 6 → Bool)
         (neck_enable : Bool) (neck_z : ℤ) (e2r : E3 → M3) (d2r dt phase : ℚ),
        (apply_pipeline st state value disable neck_enable neck_z e2r d2r dt phase).2.RC_stage = 0
        → st.RC_stage = 0 ∨ (st.cur = false ∧ st.in_zone ≠ in_zone_of state value)) := by
  constructor
  · intro st
    rfl
  · intro st state value disable neck_enable neck_z e2r d2r dt phase h
    by_cases hs : state = .reltrans_disabled
    · subst hs
      simp only [apply_pipeline, if_pos rfl] at h
      exact Or.inl h
    · obtain ⟨ip, iz, cu, stg⟩ := st
      simp only [apply_pipeline, if_neg hs] at h
      cases hz : in_zone_of state value <;> rw [hz] at h <;> cases cu <;> cases iz <;>
        simp at h <;>
        first
          | (refine Or.inr ⟨rfl, ?_⟩
             simp
             done)
          | (exact Or.inl h)
          | (left
             show stg = 0
             split_ifs at h with hadv
             all_goals omega)

/-- Witness for C10 at concrete inputs: disabled mode leaves the stage at
its prior value 0, satisfying the left disjunct. -/
theorem c10_rc_stage_on_center_witness :
    relst0.RC_stage = 0
    ∨ (relst0.cur = false ∧ relst0.in_zone ≠ in_zone_of .reltrans_disabled zero_pose) :=
  c10_rc_stage_on_center.2 relst0 .reltrans_disabled zero_pose (fun _ => false)
    false 0 (fun _ => eye3) 0 0 0 rfl

end Opentrack
